import Mathlib

/-!
Shallow embedding of the glutin backend shim of this repository
(src/backend/glutin/mod.rs, src/backend/glutin/headless.rs, src/backend/mod.rs).

The shim wraps a platform context-creation library (glutin). Rust interior
mutability (Cell, RefCell) is embedded as explicit state passing: every
Backend method takes the backend state and returns the (possibly panicking)
result together with the successor state. A Rust panic (todo!(), unwrap on
Err, deref of a taken Takeable) is an explicit RRes.panicked value; the
state returned alongside it is the state the shared Rc cell is left in,
since that state survives unwinding.

Machine integers: the framebuffer dimensions are Rust u32 values that are
only stored and retrieved, never computed with, so they are embedded as
plain Nat pairs (no overflow is possible).
-/

namespace Glium

/-- Kinds of Rust panic the shim can raise. -/
inductive PanicKind where
  /-- the todo!() placeholder in an unimplemented match arm -/
  | todoUnimplemented
  /-- Result.unwrap applied to an Err from the platform library -/
  | unwrapFailed
  /-- dereferencing a Takeable whose value has been taken -/
  | takeableTaken
  deriving DecidableEq, Repr

/-- Result of a Rust call: a normal value, or a panic of some kind. -/
inductive RRes (α : Type) where
  /-- normal return -/
  | ok (val : α)
  /-- the call panicked -/
  | panicked (kind : PanicKind)
  deriving DecidableEq, Repr

/-- Modelled from the spec: the windowing/context-creation library (glutin) is
external to this excerpt; spec section 6 says the shim consumes from it opaque
context/surface handles and a fallible makeCurrent(surface)/makeNotCurrent()
pair. The platform-side thread binding is the pair (context id, surface id)
current on the calling thread, or none. -/
structure PlatformState where
  /-- the (context id, surface id) pair bound to the thread, if any -/
  currentBinding : Option (Nat × Nat)
  deriving DecidableEq, Repr

/-- Modelled from the spec: an opaque glutin context handle known not to be
current (glutin NotCurrentContext); identified by an id. -/
structure NotCurrentContext where
  /-- platform identity of the context -/
  id : Nat
  deriving DecidableEq, Repr

/-- Modelled from the spec: an opaque glutin context handle that may be
current (glutin PossiblyCurrentContext); identified by an id. -/
structure PossiblyCurrentContext where
  /-- platform identity of the context -/
  id : Nat
  deriving DecidableEq, Repr

/-- Modelled from the spec: glutin NotCurrentContext.make_current(surface),
the fallible platform acquire. The external accept/reject decision is the
explicit input ok; on success the thread binding becomes this context on
the given surface. -/
def NotCurrentContext.make_current (c : NotCurrentContext) (surface : Nat)
    (ok : Bool) (_p : PlatformState) :
    Option (PossiblyCurrentContext × PlatformState) :=
  if ok then
    some (⟨c.id⟩, ⟨some (c.id, surface)⟩)
  else
    none

/-- Modelled from the spec: glutin PossiblyCurrentContext.make_not_current,
the fallible platform release. On success the thread binding is cleared if
it was this context, and p is untouched otherwise. -/
def PossiblyCurrentContext.make_not_current (c : PossiblyCurrentContext)
    (ok : Bool) (p : PlatformState) :
    Option (NotCurrentContext × PlatformState) :=
  if ok then
    some (⟨c.id⟩,
      ⟨match p.currentBinding with
       | some (cid, surf) => if cid = c.id then none else some (cid, surf)
       | none => none⟩)
  else
    none

/-- Modelled from the spec: glutin PossiblyCurrentContext.is_current, true
iff the thread binding is this context. -/
def PossiblyCurrentContext.is_current (c : PossiblyCurrentContext)
    (p : PlatformState) : Bool :=
  match p.currentBinding with
  | some (cid, _) => cid = c.id
  | none => false

/-- WindowedContext (mod.rs lines 35-48): a GL context that may or may not be
current. The PossiblyCurrent variant carries the framebuffer-dimensions Cell;
Cell mutation is embedded as producing an updated value. -/
inductive WindowedContext where
  /-- a context that may be current, with the recorded framebuffer dimensions -/
  | PossiblyCurrent (context : PossiblyCurrentContext)
      (framebuffer_dimensions : Nat × Nat)
  /-- a context that is not current -/
  | NotCurrent (context : NotCurrentContext)
  deriving DecidableEq, Repr

/-- From NotCurrentContext for WindowedContext (mod.rs lines 50-54). -/
def WindowedContext.fromNotCurrent (c : NotCurrentContext) : WindowedContext :=
  WindowedContext.NotCurrent c

/-- From PossiblyCurrentContext for WindowedContext (mod.rs lines 56-61):
the framebuffer-dimensions Cell is initialised to the placeholder (800, 600). -/
def WindowedContext.fromPossiblyCurrent (c : PossiblyCurrentContext) :
    WindowedContext :=
  WindowedContext.PossiblyCurrent c (800, 600)

/-- WindowedContext.is_current (mod.rs lines 73-79): false for the NotCurrent
variant, the platform query for the PossiblyCurrent variant. -/
def WindowedContext.is_current (w : WindowedContext) (p : PlatformState) : Bool :=
  match w with
  | WindowedContext.NotCurrent _ => false
  | WindowedContext.PossiblyCurrent c _ => c.is_current p

/-- WindowedContext.set_framebuffer_dimensions (mod.rs lines 82-89): replaces
the Cell contents in the PossiblyCurrent variant, and does nothing otherwise. -/
def WindowedContext.set_framebuffer_dimensions (w : WindowedContext)
    (new_dimensions : Nat × Nat) : WindowedContext :=
  match w with
  | WindowedContext.PossiblyCurrent c _ =>
      WindowedContext.PossiblyCurrent c new_dimensions
  | WindowedContext.NotCurrent c => WindowedContext.NotCurrent c

/-- The state behind GlutinBackend (mod.rs line 110): the shared
RefCell<Takeable<WindowedContext>> cell (none embeds the taken Takeable),
together with the platform-side thread binding. -/
structure GBState where
  /-- contents of the Takeable cell; none means the value has been taken -/
  gl_window : Option WindowedContext
  /-- the platform-side thread binding -/
  platform : PlatformState
  deriving DecidableEq, Repr

namespace GlutinBackend

/-- Backend.get_framebuffer_dimensions for GlutinBackend (mod.rs lines
297-304): returns the Cell contents in the PossiblyCurrent variant and hits
todo!() otherwise; dereferencing a taken Takeable panics. -/
def get_framebuffer_dimensions (s : GBState) : RRes (Nat × Nat) × GBState :=
  match s.gl_window with
  | none => (RRes.panicked PanicKind.takeableTaken, s)
  | some (WindowedContext.PossiblyCurrent _ d) => (RRes.ok d, s)
  | some (WindowedContext.NotCurrent _) =>
      (RRes.panicked PanicKind.todoUnimplemented, s)

/-- Backend.set_framebuffer_dimensions for GlutinBackend (mod.rs lines
306-311): replaces the Cell contents in the PossiblyCurrent variant and
silently does nothing otherwise. -/
def set_framebuffer_dimensions (s : GBState) (new_dimensions : Nat × Nat) :
    RRes Unit × GBState :=
  match s.gl_window with
  | none => (RRes.panicked PanicKind.takeableTaken, s)
  | some (WindowedContext.PossiblyCurrent c _) =>
      let w' := some (WindowedContext.PossiblyCurrent c new_dimensions)
      (RRes.ok (), { s with gl_window := w' })
  | some (WindowedContext.NotCurrent _) => (RRes.ok (), s)

/-- Backend.is_current for GlutinBackend (mod.rs lines 313-321): false for
the NotCurrent variant, the platform query for the PossiblyCurrent variant. -/
def is_current (s : GBState) : RRes Bool × GBState :=
  match s.gl_window with
  | none => (RRes.panicked PanicKind.takeableTaken, s)
  | some (WindowedContext.NotCurrent _) => (RRes.ok false, s)
  | some (WindowedContext.PossiblyCurrent c _) =>
      (RRes.ok (c.is_current s.platform), s)

/-- Backend.make_current for GlutinBackend (mod.rs lines 323-331): the whole
body is commented out in the source, so the method returns immediately. -/
def make_current (s : GBState) : RRes Unit × GBState :=
  (RRes.ok (), s)

/-- GlutinBackend.make_current_with_surface (mod.rs lines 334-349): takes the
WindowedContext out of the Takeable; from the NotCurrent variant it calls the
platform make_current(surface).unwrap() and reinserts via the From impl; from
the PossiblyCurrent variant it calls make_not_current().unwrap() and then
make_current(surface).unwrap() and reinserts via the From impl. Each unwrap
panics on platform rejection, leaving the Takeable taken. -/
def make_current_with_surface (s : GBState) (surface : Nat)
    (okRelease okAcquire : Bool) : RRes Unit × GBState :=
  match s.gl_window with
  | none => (RRes.panicked PanicKind.takeableTaken, s)
  | some (WindowedContext.NotCurrent c) =>
      match c.make_current surface okAcquire s.platform with
      | none => (RRes.panicked PanicKind.unwrapFailed,
                 { s with gl_window := none })
      | some (pc, p') =>
          (RRes.ok (),
           { gl_window := some (WindowedContext.fromPossiblyCurrent pc),
             platform := p' })
  | some (WindowedContext.PossiblyCurrent c _) =>
      match c.make_not_current okRelease s.platform with
      | none => (RRes.panicked PanicKind.unwrapFailed,
                 { s with gl_window := none })
      | some (nc, p') =>
          match nc.make_current surface okAcquire p' with
          | none => (RRes.panicked PanicKind.unwrapFailed,
                     { gl_window := none, platform := p' })
          | some (pc, p'') =>
              (RRes.ok (),
               { gl_window := some (WindowedContext.fromPossiblyCurrent pc),
                 platform := p'' })

/-- Modelled from the spec: the standalone makeNotCurrent transition of the
state-machine table in spec section 4.1 (Current, makeNotCurrent, NotCurrent).
No standalone release is present under src (only the rebinding path of
make_current_with_surface calls the platform make_not_current), so the
transition is modelled as the same take / release / reinsert discipline:
the context is taken out of the Takeable, released via the platform
make_not_current (unwrap panics on rejection, leaving the Takeable taken),
and reinserted as the NotCurrent variant. The spec table defines the event
only from the Current state; from the NotCurrent variant it is a no-op. -/
def make_not_current_op (s : GBState) (ok : Bool) : RRes Unit × GBState :=
  match s.gl_window with
  | none => (RRes.panicked PanicKind.takeableTaken, s)
  | some (WindowedContext.NotCurrent _) => (RRes.ok (), s)
  | some (WindowedContext.PossiblyCurrent c _) =>
      match c.make_not_current ok s.platform with
      | none => (RRes.panicked PanicKind.unwrapFailed,
                 { s with gl_window := none })
      | some (nc, p') =>
          (RRes.ok (),
           { gl_window := some (WindowedContext.NotCurrent nc),
             platform := p' })

end GlutinBackend

/-- The state behind the headless backend (headless.rs lines 18-25): the
shared RefCell<Takeable<PossiblyCurrentContext>> cell (none embeds the taken
Takeable), the platform-side thread binding, and the framebuffer-dimensions
Cell owned by the Headless struct. -/
structure HeadlessState where
  /-- contents of the Takeable cell; none means the value has been taken -/
  glutin : Option PossiblyCurrentContext
  /-- the platform-side thread binding -/
  platform : PlatformState
  /-- the Cell<(u32, u32)> field of the Headless struct -/
  framebuffer_dimensions : Nat × Nat
  deriving DecidableEq, Repr

namespace HeadlessBackend

/-- Backend.get_framebuffer_dimensions for the headless GlutinBackend
(headless.rs lines 50-53): the body is todo!(), so the call panics
unconditionally. -/
def get_framebuffer_dimensions (s : HeadlessState) :
    RRes (Nat × Nat) × HeadlessState :=
  (RRes.panicked PanicKind.todoUnimplemented, s)

/-- Backend.set_framebuffer_dimensions for the headless GlutinBackend
(headless.rs lines 55-58): the body is todo!(), so the call panics
unconditionally, ignoring the argument. -/
def set_framebuffer_dimensions (s : HeadlessState)
    (_new_dimensions : Nat × Nat) : RRes Unit × HeadlessState :=
  (RRes.panicked PanicKind.todoUnimplemented, s)

/-- Backend.is_current for the headless GlutinBackend (headless.rs lines
60-63): forwards to the platform query on the stored context. -/
def is_current (s : HeadlessState) : RRes Bool × HeadlessState :=
  match s.glutin with
  | none => (RRes.panicked PanicKind.takeableTaken, s)
  | some c => (RRes.ok (c.is_current s.platform), s)

end HeadlessBackend

/-- Modelled from the spec: context.Context.get_framebuffer_dimensions is
declared but not defined in this excerpt; spec section 6 says the core
consumes the Backend capability set, including getFramebufferDimensions, to
size default framebuffers. It is therefore modelled as a direct forward to
the backend method. -/
def Context.get_framebuffer_dimensions_headless (s : HeadlessState) :
    RRes (Nat × Nat) × HeadlessState :=
  HeadlessBackend.get_framebuffer_dimensions s

/-- Headless.draw (headless.rs lines 133-136): builds a Frame from the
dimensions returned by get_framebuffer_dimensions; if that call panics, draw
panics. The Frame is embedded as its dimensions pair. -/
def Headless.draw (s : HeadlessState) : RRes (Nat × Nat) × HeadlessState :=
  match Context.get_framebuffer_dimensions_headless s with
  | (RRes.ok d, s') => (RRes.ok d, s')
  | (RRes.panicked k, s') => (RRes.panicked k, s')

/-- A concrete backend state holding a not-current context with no thread
binding, used to evaluate theorems on concrete inputs. -/
def demoNotCurrentState : GBState :=
  { gl_window := some (WindowedContext.NotCurrent ⟨0⟩),
    platform := ⟨none⟩ }

/-- A concrete backend state holding a current context (variant
PossiblyCurrent, thread binding on surface 7), used to evaluate theorems on
concrete inputs. -/
def demoCurrentState : GBState :=
  { gl_window := some (WindowedContext.PossiblyCurrent ⟨0⟩ (800, 600)),
    platform := ⟨some (0, 7)⟩ }

/-- Events of the context-currency state machine: the acquire transition
(make_current_with_surface on a surface, platform accepting) and the release
transition (the makeNotCurrent event of the spec table, platform accepting). -/
inductive Ev where
  /-- makeCurrent(surface) -/
  | mkCurrent (surface : Nat)
  /-- makeNotCurrent() -/
  | mkNotCurrent
  deriving DecidableEq, Repr

/-- Whether an event is the acquire transition. -/
def evIsMkCurrent : Ev → Bool
  | Ev.mkCurrent _ => true
  | Ev.mkNotCurrent => false

/-- One successful transition of the currency state machine. -/
def stepEv (s : GBState) : Ev → RRes Unit × GBState
  | Ev.mkCurrent surf => GlutinBackend.make_current_with_surface s surf true true
  | Ev.mkNotCurrent => GlutinBackend.make_not_current_op s true

/-- Run a sequence of transitions, threading the backend state. -/
def runEvs (s : GBState) (es : List Ev) : GBState :=
  es.foldl (fun t e => (stepEv t e).2) s

/-- Whether the most recent transition of the trace is an acquire; b is the
currency before the trace and is returned for the empty trace. -/
def lastTransitionIsAcquire : Bool → List Ev → Bool
  | b, [] => b
  | _, e :: es => lastTransitionIsAcquire (evIsMkCurrent e) es

/-- The correct-alternation discipline of spec section 8, property 1: from a
not-current state the next event is an acquire, from a current state the next
event is a release. The Bool index is the currency at the start of the
trace. -/
inductive Alternates : Bool → List Ev → Prop where
  /-- the empty trace alternates from any currency -/
  | nil {b : Bool} : Alternates b []
  /-- an acquire is legal exactly when not current -/
  | acquire {es : List Ev} (surface : Nat) :
      Alternates true es → Alternates false (Ev.mkCurrent surface :: es)
  /-- a release is legal exactly when current -/
  | release {es : List Ev} :
      Alternates false es → Alternates true (Ev.mkNotCurrent :: es)

/-- Consistency of a backend state with a currency flag: not current means
the Takeable holds the NotCurrent variant and the thread binding is empty;
current means it holds the PossiblyCurrent variant whose context is the one
bound on the thread. -/
def Consistent : Bool → GBState → Prop
  | false, s => (∃ c, s.gl_window = some (WindowedContext.NotCurrent c)) ∧
      s.platform.currentBinding = none
  | true, s => ∃ c d surf,
      s.gl_window = some (WindowedContext.PossiblyCurrent c d) ∧
      s.platform.currentBinding = some (c.id, surf)

/-- Helper: make_current_with_surface from the NotCurrent variant with the
platform rejecting the acquire panics on the unwrap and leaves the Takeable
taken. -/
lemma mcws_not_current_rejected (s : GBState) (c : NotCurrentContext)
    (surf : Nat) (okR : Bool)
    (h : s.gl_window = some (WindowedContext.NotCurrent c)) :
    GlutinBackend.make_current_with_surface s surf okR false
      = (RRes.panicked PanicKind.unwrapFailed, { s with gl_window := none }) := by
  simp [GlutinBackend.make_current_with_surface, h,
        NotCurrentContext.make_current]

/-- Helper: make_current_with_surface from the NotCurrent variant with the
platform accepting the acquire succeeds, reinserting the context via the
From impl (dimensions reset to (800, 600)) and binding it to the surface. -/
lemma mcws_not_current_ok (s : GBState) (c : NotCurrentContext)
    (surf : Nat) (okR : Bool)
    (h : s.gl_window = some (WindowedContext.NotCurrent c)) :
    GlutinBackend.make_current_with_surface s surf okR true
      = (RRes.ok (),
         { gl_window := some (WindowedContext.PossiblyCurrent ⟨c.id⟩ (800, 600)),
           platform := ⟨some (c.id, surf)⟩ }) := by
  simp [GlutinBackend.make_current_with_surface, h,
        NotCurrentContext.make_current, WindowedContext.fromPossiblyCurrent]

/-- Helper: make_current_with_surface from the PossiblyCurrent variant with
the platform rejecting either step panics on an unwrap and leaves the
Takeable taken. -/
lemma mcws_possibly_current_rejected (s : GBState)
    (c : PossiblyCurrentContext) (d : Nat × Nat) (surf : Nat) (okR okA : Bool)
    (h : s.gl_window = some (WindowedContext.PossiblyCurrent c d))
    (hrej : okR = false ∨ okA = false) :
    (GlutinBackend.make_current_with_surface s surf okR okA).1
      = RRes.panicked PanicKind.unwrapFailed ∧
    ((GlutinBackend.make_current_with_surface s surf okR okA).2).gl_window
      = none := by
  rcases hrej with hr | ha
  · subst hr
    simp [GlutinBackend.make_current_with_surface, h,
          PossiblyCurrentContext.make_not_current]
  · subst ha
    cases okR with
    | false =>
        simp [GlutinBackend.make_current_with_surface, h,
              PossiblyCurrentContext.make_not_current]
    | true =>
        simp [GlutinBackend.make_current_with_surface, h,
              PossiblyCurrentContext.make_not_current,
              NotCurrentContext.make_current]

/-- Helper: make_current_with_surface from the PossiblyCurrent variant with
the platform accepting both steps succeeds, reinserting the context via the
From impl (dimensions reset to (800, 600)) and binding it to the new
surface. -/
lemma mcws_possibly_current_ok (s : GBState)
    (c : PossiblyCurrentContext) (d : Nat × Nat) (surf : Nat)
    (h : s.gl_window = some (WindowedContext.PossiblyCurrent c d)) :
    GlutinBackend.make_current_with_surface s surf true true
      = (RRes.ok (),
         { gl_window := some (WindowedContext.PossiblyCurrent ⟨c.id⟩ (800, 600)),
           platform := ⟨some (c.id, surf)⟩ }) := by
  simp [GlutinBackend.make_current_with_surface, h,
        PossiblyCurrentContext.make_not_current,
        NotCurrentContext.make_current, WindowedContext.fromPossiblyCurrent]

/-- Claim C2, counterexample. The claim states that a platform-rejected
makeCurrent/makeNotCurrent is propagated as a failed result (an error value,
not a panic); on the concrete current state with the release rejected, the
call in fact panics through the unwrap (the method returns unit and has no
error channel), leaving the Takeable taken. -/
theorem C2_counterexample :
    GlutinBackend.make_current_with_surface demoCurrentState 3 false true
      = (RRes.panicked PanicKind.unwrapFailed,
         { demoCurrentState with gl_window := none }) := by
  rfl

/-- Claim C2, amended: every invocation of make_current_with_surface that is
rejected by the platform layer panics through Result.unwrap (it does not
return an error value), leaves the Takeable taken, and performs no retry. -/
theorem C2_amended_platform_rejection_panics (s : GBState) (surf : Nat) :
    (∀ c okR, s.gl_window = some (WindowedContext.NotCurrent c) →
        GlutinBackend.make_current_with_surface s surf okR false
          = (RRes.panicked PanicKind.unwrapFailed,
             { s with gl_window := none })) ∧
    (∀ c d okR okA, s.gl_window = some (WindowedContext.PossiblyCurrent c d) →
        (okR = false ∨ okA = false) →
        (GlutinBackend.make_current_with_surface s surf okR okA).1
          = RRes.panicked PanicKind.unwrapFailed ∧
        ((GlutinBackend.make_current_with_surface s surf okR okA).2).gl_window
          = none) := by
  constructor
  · intro c okR h
    exact mcws_not_current_rejected s c surf okR h
  · intro c d okR okA h hrej
    exact mcws_possibly_current_rejected s c d surf okR okA h hrej

/-- Claim C2, witness: both rejection branches evaluated on the concrete
states. -/
theorem C2_witness :
    GlutinBackend.make_current_with_surface demoNotCurrentState 3 true false
      = (RRes.panicked PanicKind.unwrapFailed,
         { demoNotCurrentState with gl_window := none }) ∧
    (GlutinBackend.make_current_with_surface demoCurrentState 5 false true).1
      = RRes.panicked PanicKind.unwrapFailed :=
  ⟨(C2_amended_platform_rejection_panics demoNotCurrentState 3).1 ⟨0⟩ true rfl,
   ((C2_amended_platform_rejection_panics demoCurrentState 5).2 ⟨0⟩ (800, 600)
      false true rfl (Or.inl rfl)).1⟩

/-- Claim C3: setting dimensions while the context is in the NotCurrent
variant raises no error and changes nothing, and after a subsequent
successful make_current_with_surface the written value is not observable:
get_framebuffer_dimensions returns the (800, 600) placeholder installed by
the From impl, not the discarded value. -/
theorem C3_set_while_not_current_discarded
    (s : GBState) (c : NotCurrentContext) (nd : Nat × Nat) (surf : Nat)
    (h : s.gl_window = some (WindowedContext.NotCurrent c)) :
    GlutinBackend.set_framebuffer_dimensions s nd = (RRes.ok (), s) ∧
    (GlutinBackend.make_current_with_surface
        (GlutinBackend.set_framebuffer_dimensions s nd).2 surf true true).1
      = RRes.ok () ∧
    (GlutinBackend.get_framebuffer_dimensions
        (GlutinBackend.make_current_with_surface
          (GlutinBackend.set_framebuffer_dimensions s nd).2 surf true true).2).1
      = RRes.ok (800, 600) := by
  have hset : GlutinBackend.set_framebuffer_dimensions s nd = (RRes.ok (), s) := by
    simp [GlutinBackend.set_framebuffer_dimensions, h]
  refine ⟨hset, ?_, ?_⟩
  · rw [hset, mcws_not_current_ok s c surf true h]
  · rw [hset, mcws_not_current_ok s c surf true h]
    rfl

/-- Claim C3, witness: the discard policy evaluated on the concrete
not-current state with the written value (1024, 768). -/
theorem C3_witness :
    GlutinBackend.set_framebuffer_dimensions demoNotCurrentState (1024, 768)
      = (RRes.ok (), demoNotCurrentState) ∧
    (GlutinBackend.make_current_with_surface
        (GlutinBackend.set_framebuffer_dimensions demoNotCurrentState
          (1024, 768)).2 9 true true).1 = RRes.ok () ∧
    (GlutinBackend.get_framebuffer_dimensions
        (GlutinBackend.make_current_with_surface
          (GlutinBackend.set_framebuffer_dimensions demoNotCurrentState
            (1024, 768)).2 9 true true).2).1 = RRes.ok (800, 600) :=
  C3_set_while_not_current_discarded demoNotCurrentState ⟨0⟩ (1024, 768) 9 rfl

/-- Claim C4: invoking make_current_with_surface on a context in the
PossiblyCurrent variant performs an implicit release-then-acquire: the
platform make_not_current runs first and, when both platform steps accept,
the platform make_current on the new surface follows, ending with the
context reinserted and bound to that surface; when either step is rejected
the whole call fails deterministically with an unwrap panic and the Takeable
is left taken — it never silently corrupts the state. -/
theorem C4_rebinding_release_then_acquire
    (s : GBState) (c : PossiblyCurrentContext) (d : Nat × Nat) (surf : Nat)
    (okR okA : Bool)
    (h : s.gl_window = some (WindowedContext.PossiblyCurrent c d)) :
    (okR = true → okA = true →
      ∃ nc p', c.make_not_current okR s.platform = some (nc, p') ∧
        ∃ pc p'', nc.make_current surf okA p' = some (pc, p'') ∧
          GlutinBackend.make_current_with_surface s surf okR okA
            = (RRes.ok (),
               { gl_window := some (WindowedContext.fromPossiblyCurrent pc),
                 platform := p'' }) ∧
          p''.currentBinding = some (pc.id, surf)) ∧
    ((okR = false ∨ okA = false) →
      (GlutinBackend.make_current_with_surface s surf okR okA).1
        = RRes.panicked PanicKind.unwrapFailed ∧
      ((GlutinBackend.make_current_with_surface s surf okR okA).2).gl_window
        = none) := by
  constructor
  · intro hR hA
    subst hR; subst hA
    refine ⟨⟨c.id⟩, _, rfl, ⟨c.id⟩, ⟨some (c.id, surf)⟩, rfl, ?_, rfl⟩
    rw [mcws_possibly_current_ok s c d surf h]
    rfl
  · intro hrej
    exact mcws_possibly_current_rejected s c d surf okR okA h hrej

/-- Claim C4, witness: the successful rebinding branch evaluated on the
concrete current state, moving the binding from surface 7 to surface 9. -/
theorem C4_witness :
    ∃ nc p',
      PossiblyCurrentContext.make_not_current ⟨0⟩ true ⟨some (0, 7)⟩
        = some (nc, p') ∧
      ∃ pc p'', nc.make_current 9 true p' = some (pc, p'') ∧
        GlutinBackend.make_current_with_surface demoCurrentState 9 true true
          = (RRes.ok (),
             { gl_window := some (WindowedContext.fromPossiblyCurrent pc),
               platform := p'' }) ∧
        p''.currentBinding = some (pc.id, 9) :=
  (C4_rebinding_release_then_acquire demoCurrentState ⟨0⟩ (800, 600) 9
      true true rfl).1 rfl rfl

/-- Claim C1, counterexample. The claim states that getFramebufferDimensions
called while NotCurrent fails with a reportable error rather than a
crash/abort; on the concrete not-current state the call in fact panics
through the todo!() placeholder (the Backend signature returns a bare pair
and has no error channel at all). -/
theorem C1_counterexample :
    (GlutinBackend.get_framebuffer_dimensions demoNotCurrentState).1
      = RRes.panicked PanicKind.todoUnimplemented := by
  rfl

/-- Claim C1, amended: for every call to get_framebuffer_dimensions while the
WindowedContext is in the NotCurrent variant, the operation panics via the
todo!() placeholder (a crash of the calling thread, not a reportable error
value), leaving the state unchanged. -/
theorem C1_amended_get_dims_not_current_panics
    (s : GBState) (c : NotCurrentContext)
    (h : s.gl_window = some (WindowedContext.NotCurrent c)) :
    GlutinBackend.get_framebuffer_dimensions s
      = (RRes.panicked PanicKind.todoUnimplemented, s) := by
  simp [GlutinBackend.get_framebuffer_dimensions, h]

/-- Claim C1, witness: the amended theorem evaluated on the concrete
not-current state. -/
theorem C1_witness :
    GlutinBackend.get_framebuffer_dimensions demoNotCurrentState
      = (RRes.panicked PanicKind.todoUnimplemented, demoNotCurrentState) :=
  C1_amended_get_dims_not_current_panics demoNotCurrentState ⟨0⟩ rfl

/-- Claim C5: while the context is Current (PossiblyCurrent variant, platform
query true), set_framebuffer_dimensions (w, h) followed immediately by
get_framebuffer_dimensions returns exactly (w, h). -/
theorem C5_set_get_roundtrip
    (s : GBState) (c : PossiblyCurrentContext) (d nd : Nat × Nat)
    (h : s.gl_window = some (WindowedContext.PossiblyCurrent c d))
    (_hcur : (GlutinBackend.is_current s).1 = RRes.ok true) :
    (GlutinBackend.set_framebuffer_dimensions s nd).1 = RRes.ok () ∧
    (GlutinBackend.get_framebuffer_dimensions
        (GlutinBackend.set_framebuffer_dimensions s nd).2).1 = RRes.ok nd := by
  simp [GlutinBackend.set_framebuffer_dimensions,
        GlutinBackend.get_framebuffer_dimensions, h]

/-- Claim C5, witness: the round trip evaluated on the concrete current state
with dimensions (1024, 768). -/
theorem C5_witness :
    (GlutinBackend.set_framebuffer_dimensions demoCurrentState (1024, 768)).1
      = RRes.ok () ∧
    (GlutinBackend.get_framebuffer_dimensions
        (GlutinBackend.set_framebuffer_dimensions demoCurrentState
          (1024, 768)).2).1 = RRes.ok (1024, 768) :=
  C5_set_get_roundtrip demoCurrentState ⟨0⟩ (800, 600) (1024, 768) rfl rfl

/-- Claim C6: set_framebuffer_dimensions is a successful no-op while the
context is in the NotCurrent variant (no panic, the whole state unchanged,
the update discarded), and while in the PossiblyCurrent variant it succeeds
and updates exactly the recorded dimensions. -/
theorem C6_set_dims_no_op_when_not_current (s : GBState) (nd : Nat × Nat) :
    (∀ c, s.gl_window = some (WindowedContext.NotCurrent c) →
        GlutinBackend.set_framebuffer_dimensions s nd = (RRes.ok (), s)) ∧
    (∀ c d, s.gl_window = some (WindowedContext.PossiblyCurrent c d) →
        GlutinBackend.set_framebuffer_dimensions s nd
          = (RRes.ok (),
             { s with
                gl_window := some (WindowedContext.PossiblyCurrent c nd) })) := by
  constructor
  · intro c h
    simp [GlutinBackend.set_framebuffer_dimensions, h]
  · intro c d h
    simp [GlutinBackend.set_framebuffer_dimensions, h]

/-- Claim C6, witness: both branches evaluated on the concrete states with
dimensions (10, 20). -/
theorem C6_witness :
    GlutinBackend.set_framebuffer_dimensions demoNotCurrentState (10, 20)
      = (RRes.ok (), demoNotCurrentState) ∧
    GlutinBackend.set_framebuffer_dimensions demoCurrentState (10, 20)
      = (RRes.ok (),
         { demoCurrentState with
            gl_window := some (WindowedContext.PossiblyCurrent ⟨0⟩ (10, 20)) }) :=
  ⟨(C6_set_dims_no_op_when_not_current demoNotCurrentState (10, 20)).1 ⟨0⟩ rfl,
   (C6_set_dims_no_op_when_not_current demoCurrentState (10, 20)).2
     ⟨0⟩ (800, 600) rfl⟩

/-- Claim C8: is_current has no side effects; for every backend state the
successor state it returns is the input state itself, so the currency
variant and the recorded framebuffer dimensions are unchanged. -/
theorem C8_is_current_no_side_effects :
    ∀ s : GBState, (GlutinBackend.is_current s).2 = s := by
  intro s
  rcases s with ⟨gw, p⟩
  rcases gw with _ | w
  · rfl
  · rcases w with ⟨c, d⟩ | c <;> rfl

/-- Claim C9: the Backend trait method make_current on the windowed
GlutinBackend is a no-op (its body is commented out in the source): for
every state it returns without panic and leaves the state unchanged; by
contrast make_current_with_surface does transition currency, as evaluated
on the concrete not-current state. -/
theorem C9_trait_make_current_no_op :
    (∀ s : GBState, GlutinBackend.make_current s = (RRes.ok (), s)) ∧
    (GlutinBackend.is_current demoNotCurrentState).1 = RRes.ok false ∧
    (GlutinBackend.is_current
        (GlutinBackend.make_current_with_surface demoNotCurrentState
          1 true true).2).1 = RRes.ok true := by
  refine ⟨fun s => rfl, rfl, rfl⟩

/-- Claim C10: on the headless backend, get_framebuffer_dimensions and
set_framebuffer_dimensions panic unconditionally through todo!(), for every
state (current or not), and Headless.draw, which calls
get_framebuffer_dimensions, panics as well. -/
theorem C10_headless_dims_and_draw_panic :
    ∀ (s : HeadlessState) (nd : Nat × Nat),
    (HeadlessBackend.get_framebuffer_dimensions s).1
      = RRes.panicked PanicKind.todoUnimplemented ∧
    (HeadlessBackend.set_framebuffer_dimensions s nd).1
      = RRes.panicked PanicKind.todoUnimplemented ∧
    (Headless.draw s).1 = RRes.panicked PanicKind.todoUnimplemented := by
  intro s nd
  refine ⟨rfl, rfl, rfl⟩

/-- Helper: the spec-modelled standalone release from a current, bound state
succeeds and reinserts the NotCurrent variant with the thread binding
cleared. -/
lemma mnco_possibly_current_ok (s : GBState) (c : PossiblyCurrentContext)
    (d : Nat × Nat) (surf : Nat)
    (hw : s.gl_window = some (WindowedContext.PossiblyCurrent c d))
    (hb : s.platform.currentBinding = some (c.id, surf)) :
    GlutinBackend.make_not_current_op s true
      = (RRes.ok (),
         { gl_window := some (WindowedContext.NotCurrent ⟨c.id⟩),
           platform := ⟨none⟩ }) := by
  simp [GlutinBackend.make_not_current_op,
        PossiblyCurrentContext.make_not_current, hw, hb]

/-- Helper: is_current reads the currency flag off any consistent state. -/
lemma consistent_is_current {b : Bool} {s : GBState} (hc : Consistent b s) :
    (GlutinBackend.is_current s).1 = RRes.ok b := by
  cases b with
  | false =>
      obtain ⟨⟨c, hw⟩, hb⟩ := hc
      simp [GlutinBackend.is_current, hw]
  | true =>
      obtain ⟨c, d, surf, hw, hb⟩ := hc
      simp [GlutinBackend.is_current, hw,
            PossiblyCurrentContext.is_current, hb]

/-- Helper: a successful acquire from a consistent not-current state yields a
consistent current state. -/
lemma consistent_step_acquire {s : GBState} (surf : Nat)
    (hc : Consistent false s) :
    Consistent true (stepEv s (Ev.mkCurrent surf)).2 := by
  obtain ⟨⟨c, hw⟩, hb⟩ := hc
  show Consistent true
    (GlutinBackend.make_current_with_surface s surf true true).2
  rw [mcws_not_current_ok s c surf true hw]
  exact ⟨⟨c.id⟩, (800, 600), surf, rfl, rfl⟩

/-- Helper: a successful release from a consistent current state yields a
consistent not-current state. -/
lemma consistent_step_release {s : GBState} (hc : Consistent true s) :
    Consistent false (stepEv s Ev.mkNotCurrent).2 := by
  obtain ⟨c, d, surf, hw, hb⟩ := hc
  show Consistent false (GlutinBackend.make_not_current_op s true).2
  rw [mnco_possibly_current_ok s c d surf hw hb]
  exact ⟨⟨⟨c.id⟩, rfl⟩, rfl⟩

/-- Helper: running a correctly alternating trace preserves consistency,
with the final currency given by the most recent transition. -/
lemma consistent_runEvs {b : Bool} {es : List Ev} (ha : Alternates b es) :
    ∀ s : GBState, Consistent b s →
      Consistent (lastTransitionIsAcquire b es) (runEvs s es) := by
  induction ha with
  | nil =>
      intro s hc
      exact hc
  | acquire surf _hrest ih =>
      intro s hc
      exact ih _ (consistent_step_acquire surf hc)
  | release _hrest ih =>
      intro s hc
      exact ih _ (consistent_step_release hc)

/-- Claim C7: for every correctly alternating trace of makeCurrent and
makeNotCurrent transitions started from a consistent not-current state,
is_current returns true exactly when the most recent successful transition
of the trace is a makeCurrent, false when it is a makeNotCurrent, and false
for the empty trace (no transition has made the context current). -/
theorem C7_is_current_reflects_last_transition
    (s : GBState) (es : List Ev)
    (hc : Consistent false s) (ha : Alternates false es) :
    (GlutinBackend.is_current (runEvs s es)).1
      = RRes.ok (lastTransitionIsAcquire false es) :=
  consistent_is_current (consistent_runEvs ha s hc)

/-- Claim C7, witness: the trace acquire, release, acquire evaluated on the
concrete not-current state ends with is_current returning true. -/
theorem C7_witness :
    (GlutinBackend.is_current (runEvs demoNotCurrentState
        [Ev.mkCurrent 5, Ev.mkNotCurrent, Ev.mkCurrent 11])).1
      = RRes.ok true :=
  C7_is_current_reflects_last_transition demoNotCurrentState
    [Ev.mkCurrent 5, Ev.mkNotCurrent, Ev.mkCurrent 11]
    ⟨⟨⟨0⟩, rfl⟩, rfl⟩
    (Alternates.acquire 5 (Alternates.release
      (Alternates.acquire 11 Alternates.nil)))

end Glium
